import Mathlib

/-
Shallow embedding of the multithreaded OTF→TTF font conversion tool
(src/多线程字体转换工具.py).

The program discovers `.otf` files in a fixed directory, sizes a thread
pool from the detected CPU count, submits one conversion task per file,
collects results in completion order while updating counters and a
progress bar, and prints a final report with a failure listing.

Modelling conventions:
  * wall-clock instants and durations are rationals;
  * the outcome of `subprocess.run` (and of `os.listdir`, `os.path.exists`,
    `os.cpu_count`) is supplied by an explicit environment value;
  * Python exceptions are modelled as `Except.error` carrying `str(e)`;
  * Python string helpers `strip`, `split`, `lower`, `endswith` and
    `os.path.basename` are re-implemented below over the character list of
    the string (the POSIX separator is used for `basename`; the claims do
    not depend on the separator).
-/

namespace FontConvert

/-- Python `s.split(sep)` for a one-character separator: splits at every
occurrence, keeps empty segments, and always returns at least one element
(the result is `[""]` on the empty string, exactly like Python, where the
returned list is never the empty list). -/
def splitOnCharAux (sep : Char) : List Char → List Char → List String
  | [], acc => [String.mk acc.reverse]
  | c :: cs, acc =>
      if c = sep then String.mk acc.reverse :: splitOnCharAux sep cs []
      else splitOnCharAux sep cs (c :: acc)

/-- Python `s.split(sep)` for a one-character separator. -/
def splitOnChar (sep : Char) (s : String) : List String :=
  splitOnCharAux sep s.toList []

/-- Python `s.strip()`: drop leading and trailing whitespace. -/
def pyStrip (s : String) : String :=
  String.mk (((s.toList.dropWhile Char.isWhitespace).reverse.dropWhile
    Char.isWhitespace).reverse)

/-- Python `s.lower()`. -/
def pyLower (s : String) : String :=
  String.mk (s.toList.map Char.toLower)

/-- Python `s.endswith(t)`. -/
def strEndsWith (s t : String) : Bool :=
  t.toList.isSuffixOf s.toList

/-- Python `os.path.basename` (POSIX separator): the part after the last
path separator. -/
def basename (p : String) : String :=
  ((splitOnChar '/' p).getLast?).getD p

/-- Python `os.path.join(directory, f)` (POSIX separator). -/
def joinPath (directory f : String) : String :=
  directory ++ "/" ++ f

/-- The result dictionary built by `convert_otf_to_ttf`:
`{"filename": ..., "success": ..., "error": ..., "time": ...}`. -/
structure ConversionResult where
  filename : String
  success : Bool
  error : String
  time : ℚ
deriving DecidableEq, Repr

/-- Outcome of the `subprocess.run(["otf2ttf", file_path], ...)` call:
either the process completes with an exit code and captured stderr text,
or the call raises a Python `Exception` with message `str(e)`
(for example `FileNotFoundError` when the executable is absent). -/
inductive ProcOutcome where
  | completes (returncode : Int) (stderr : String)
  | raises (msg : String)
deriving DecidableEq, Repr

/-- Environment of one `convert_otf_to_ttf` call: what `os.path.exists`
returns for the input path, how the subprocess call behaves, and the two
`time.time()` readings taken at entry and in the `finally` block. -/
structure ConvEnv where
  fileExists : Bool
  proc : ProcOutcome
  t_start : ℚ
  t_end : ℚ
deriving DecidableEq, Repr

/-- Body of the `try:` block of `convert_otf_to_ttf` (lines 65-86).
`Except.error msg` models a Python exception escaping the block. The
result dictionary is created before the block with `success = False`,
`error = ""`, `time = 0`; the body overwrites these fields exactly where
the source does. The non-zero-exit branch computes
`process.stderr.strip().split('\n')` and takes its last element when the
list is non-empty, else the generic message — faithfully including the
fact that Python's `split` never returns an empty list. -/
def convertTryBody (file_path : String) (env : ConvEnv) : Except String ConversionResult :=
  let filename := basename file_path
  if !env.fileExists then
    .ok { filename := filename, success := false, error := "文件不存在", time := 0 }
  else
    match env.proc with
    | .raises msg => .error msg
    | .completes rc stderr =>
        if rc = 0 then
          .ok { filename := filename, success := true, error := "", time := 0 }
        else
          let error_lines := splitOnChar '\n' (pyStrip stderr)
          .ok { filename := filename, success := false,
                error := (error_lines.getLast?).getD ("未知错误"), time := 0 }

/-- Whole `convert_otf_to_ttf` (lines 59-91): the `except Exception`
handler folds a raised exception into a failed result with the
`系统错误: <detail>` message, and the `finally: result["time"] = ...;
return result` runs on every exit path — including the early `return`
for a missing input file — so the elapsed-time field is always set and
the function always returns a result rather than propagating. -/
def convert_otf_to_ttf (file_path : String) (env : ConvEnv) : ConversionResult :=
  let handled : ConversionResult :=
    match convertTryBody file_path env with
    | .ok r => r
    | .error msg =>
        { filename := basename file_path, success := false,
          error := "系统错误: " ++ msg, time := 0 }
  { handled with time := env.t_end - env.t_start }

/-- Outcome of one submitted future, as seen by `future.result()` in the
collection loop of `main`: either the task function returned a result
dictionary, or the task's execution raised and `future.result()` re-raises
(modelled here with the exception message). -/
inductive TaskOutcome where
  | res (r : ConversionResult)
  | exn (msg : String)
deriving DecidableEq, Repr

/-- The result the collection loop works with for one completed future
(lines 139-147 of `main`): the returned dictionary, or — when
`future.result()` raised — the synthesized failed dictionary
`{"filename": basename(file_path), "success": False,
"error": "任务异常: <detail>", "time": 0}`. -/
def outcomeResult (file_path : String) (o : TaskOutcome) : ConversionResult :=
  match o with
  | .res r => r
  | .exn msg =>
      { filename := basename file_path, success := false,
        error := "任务异常: " ++ msg, time := 0 }

/-- State of the collection loop in `main`: the four counters initialised
before the pool (lines 121-124), the results consumed so far, and the
`(iteration, total)` argument pair of every `print_progress_bar` call made
so far (line 165). -/
structure LoopState where
  success_count : ℕ
  failed_count : ℕ
  processed_count : ℕ
  total_processing_time : ℚ
  collected : List ConversionResult
  progressCalls : List (ℕ × ℕ)
deriving DecidableEq, Repr

/-- Counter state before the first result is consumed. -/
def initLoopState : LoopState :=
  { success_count := 0, failed_count := 0, processed_count := 0,
    total_processing_time := 0, collected := [], progressCalls := [] }

/-- One iteration of the `for future in as_completed(future_to_file)` loop
(lines 135-173): increment `processed_count`, recover the result (possibly
synthesizing a failure for an escaped exception), bump exactly one of
`success_count` / `failed_count`, add the per-file time, and call
`print_progress_bar(processed_count, total_files)`. -/
def collectStep (total_files : ℕ) (s : LoopState) (t : String × TaskOutcome) : LoopState :=
  let result := outcomeResult t.1 t.2
  let processed := s.processed_count + 1
  { success_count := if result.success then s.success_count + 1 else s.success_count,
    failed_count := if result.success then s.failed_count else s.failed_count + 1,
    processed_count := processed,
    total_processing_time := s.total_processing_time + result.time,
    collected := s.collected ++ [result],
    progressCalls := s.progressCalls ++ [(processed, total_files)] }

/-- The whole collection loop of `main`, folded over the completed futures
in the order `as_completed` yields them (each submitted future exactly
once). Each list element pairs the submitted file path with its outcome. -/
def collectResults (total_files : ℕ) (tasks : List (String × TaskOutcome)) : LoopState :=
  tasks.foldl (collectStep total_files) initLoopState

/-- Average per-file time computed at line 178:
`total_processing_time / total_files if total_files > 0 else 0`. -/
def avg_time_per_file (total_processing_time : ℚ) (total_files : ℕ) : ℚ :=
  if 0 < total_files then total_processing_time / (total_files : ℚ) else 0

/-- Throughput computed at line 179:
`success_count / total_duration if total_duration > 0 else 0`. -/
def files_per_second (success_count : ℕ) (total_duration : ℚ) : ℚ :=
  if 0 < total_duration then (success_count : ℚ) / total_duration else 0

/-- The failure listing of `main` (lines 190-198): iterate the submitted
futures in insertion order; for each, re-ask `future.result()` — if that
raises, the bare `except: pass` skips the future entirely; otherwise print
`filename: error` when the result is a failure. The returned list holds
the printed `(filename, error)` pairs in order. -/
def failureListing : List (String × TaskOutcome) → List (String × String)
  | [] => []
  | t :: ts =>
      match t.2 with
      | .exn _ => failureListing ts
      | .res r =>
          if r.success then failureListing ts
          else (r.filename, r.error) :: failureListing ts

/-- The percentage computed by `print_progress_bar` (line 46):
`100 * (iteration / float(total))`. Python raises `ZeroDivisionError`
when `total = 0`, modelled as `none`. -/
def print_progress_bar_percent (iteration total : ℕ) : Option ℚ :=
  if total = 0 then none else some (100 * ((iteration : ℚ) / (total : ℚ)))

/-- The bar fill computed by `print_progress_bar` (line 47):
`int(length * iteration // total)`, floor division on naturals; Python
raises `ZeroDivisionError` when `total = 0`, modelled as `none`. -/
def print_progress_bar_filled_length (iteration total len : ℕ) : Option ℕ :=
  if total = 0 then none else some (len * iteration / total)

/-- Filesystem environment of one run: the outcome of
`os.listdir(font_dir)` (an exception such as `FileNotFoundError` or
`NotADirectoryError` is `Except.error` with its message) and the
`os.path.isfile` predicate. -/
structure FsEnv where
  listdir : Except String (List String)
  isFile : String → Bool

/-- The `get_otf_files` function (lines 54-57): list the directory and keep
the entries whose lowercased name ends in `.otf` and which are regular
files, each joined onto the directory. An exception raised by
`os.listdir` propagates (the function has no handler). -/
def get_otf_files (env : FsEnv) (directory : String) : Except String (List String) :=
  match env.listdir with
  | .error e => .error e
  | .ok entries =>
      .ok ((entries.filter
        (fun f => strEndsWith (pyLower f) (".otf") && env.isFile (joinPath directory f))).map
          (fun f => joinPath directory f))

/-- Python `os.cpu_count() or 1` (line 110): `None` — and, by the `or`,
a zero count — both fall back to 1. -/
def cpu_cores_of (detected : Option ℕ) : ℕ :=
  match detected with
  | none => 1
  | some n => if n = 0 then 1 else n

/-- Worker-pool size (line 111): `min(cpu_cores * 2, 32)`. -/
def max_threads_of (cpu_cores : ℕ) : ℕ :=
  min (cpu_cores * 2) 32

/-- How far `main` gets before (or instead of) running the pool:
`dirError` — `os.listdir` raised and the exception propagated out of
`main` (no handler exists), before any pool or task was created;
`noFiles` — zero matching files, `main` printed the error and returned at
line 107, before the pool; `dispatched` — the pool is created with
`max_threads` workers and one task per discovered file submitted. -/
inductive MainOutcome where
  | dirError (msg : String)
  | noFiles
  | dispatched (otf_files : List String) (max_threads : ℕ)
deriving DecidableEq, Repr

/-- The pre-dispatch phase of `main` (lines 102-132): discover files,
return early on zero files, otherwise size the pool and submit every
file. -/
def mainPhase (env : FsEnv) (cpuDetect : Option ℕ) (font_dir : String) : MainOutcome :=
  match get_otf_files env font_dir with
  | .error e => .dirError e
  | .ok otf_files =>
      if otf_files.length = 0 then .noFiles
      else .dispatched otf_files (max_threads_of (cpu_cores_of cpuDetect))

lemma foldl_collect_processed (total : ℕ) (tasks : List (String × TaskOutcome))
    (s : LoopState) :
    (tasks.foldl (collectStep total) s).processed_count
      = s.processed_count + tasks.length := by
  induction tasks generalizing s with
  | nil => simp
  | cons t ts ih =>
      rw [List.foldl_cons, ih]
      simp [collectStep]
      omega

lemma foldl_collect_success_failed (total : ℕ) (tasks : List (String × TaskOutcome))
    (s : LoopState) :
    (tasks.foldl (collectStep total) s).success_count
        + (tasks.foldl (collectStep total) s).failed_count
      = s.success_count + s.failed_count + tasks.length := by
  induction tasks generalizing s with
  | nil => simp
  | cons t ts ih =>
      rw [List.foldl_cons, ih]
      cases hs : (outcomeResult t.1 t.2).success <;> simp [collectStep, hs] <;> omega

lemma foldl_collect_collected (total : ℕ) (tasks : List (String × TaskOutcome))
    (s : LoopState) :
    (tasks.foldl (collectStep total) s).collected
      = s.collected ++ tasks.map (fun t => outcomeResult t.1 t.2) := by
  induction tasks generalizing s with
  | nil => simp
  | cons t ts ih =>
      rw [List.foldl_cons, ih]
      simp [collectStep]

lemma foldl_collect_progress_mem (total : ℕ) (tasks : List (String × TaskOutcome))
    (s : LoopState) :
    ∀ p ∈ (tasks.foldl (collectStep total) s).progressCalls,
      p ∈ s.progressCalls ∨
        (s.processed_count + 1 ≤ p.1 ∧ p.1 ≤ s.processed_count + tasks.length
          ∧ p.2 = total) := by
  induction tasks generalizing s with
  | nil =>
      intro p hp
      exact Or.inl hp
  | cons t ts ih =>
      intro p hp
      rw [List.foldl_cons] at hp
      have hc : (collectStep total s t).processed_count = s.processed_count + 1 := by
        simp [collectStep]
      rcases ih (collectStep total s t) p hp with h | h
      · have hmem : p ∈ s.progressCalls ++ [(s.processed_count + 1, total)] := by
          simpa [collectStep] using h
        rcases List.mem_append.mp hmem with h1 | h1
        · exact Or.inl h1
        · right
          have hp1 : p = (s.processed_count + 1, total) := List.mem_singleton.mp h1
          subst hp1
          refine ⟨le_refl _, by simp, rfl⟩
      · right
        rw [hc] at h
        have h21 := h.2.1
        exact ⟨by omega, by simp only [List.length_cons]; omega, h.2.2⟩

lemma collectResults_processed (total : ℕ) (tasks : List (String × TaskOutcome)) :
    (collectResults total tasks).processed_count = tasks.length := by
  simpa [initLoopState] using foldl_collect_processed total tasks initLoopState

lemma collectResults_success_failed (total : ℕ) (tasks : List (String × TaskOutcome)) :
    (collectResults total tasks).success_count + (collectResults total tasks).failed_count
      = tasks.length := by
  simpa [initLoopState] using foldl_collect_success_failed total tasks initLoopState

lemma collectResults_collected (total : ℕ) (tasks : List (String × TaskOutcome)) :
    (collectResults total tasks).collected
      = tasks.map (fun t => outcomeResult t.1 t.2) := by
  simpa [initLoopState] using foldl_collect_collected total tasks initLoopState

/-- Claim C1: for every run that reaches dispatching with N discovered
files, the result-collection loop of `main` consumes exactly one
`ConversionResult` per submitted task — the completion order seen by the
loop is a permutation of the submitted tasks, none dropped, none
duplicated — and at the end of the loop
`success_count + failed_count = processed_count = N`, for any mix of
successful and failing conversions. -/
theorem collect_loop_one_result_per_task
    (submitted completion : List (String × TaskOutcome))
    (hperm : completion.Perm submitted) :
    (collectResults submitted.length completion).processed_count = submitted.length ∧
    (collectResults submitted.length completion).success_count
        + (collectResults submitted.length completion).failed_count
      = (collectResults submitted.length completion).processed_count ∧
    (collectResults submitted.length completion).collected.Perm
      (submitted.map (fun t => outcomeResult t.1 t.2)) := by
  have hlen : completion.length = submitted.length := hperm.length_eq
  refine ⟨?_, ?_, ?_⟩
  · rw [collectResults_processed, hlen]
  · rw [collectResults_success_failed, collectResults_processed, hlen]
  · rw [collectResults_collected]
    exact hperm.map (fun t => outcomeResult t.1 t.2)

/-- Witness for C1 at a concrete two-task run (one success, one escaped
exception, yielded in reversed completion order). -/
theorem collect_loop_one_result_per_task_witness :
    ([(("d/b.otf" : String), TaskOutcome.exn ("boom")),
      (("d/a.otf" : String),
        TaskOutcome.res { filename := "a.otf", success := true, error := "", time := 1 })]).Perm
      [(("d/a.otf" : String),
        TaskOutcome.res { filename := "a.otf", success := true, error := "", time := 1 }),
       (("d/b.otf" : String), TaskOutcome.exn ("boom"))] ∧
    ((collectResults
        ([(("d/a.otf" : String),
            TaskOutcome.res { filename := "a.otf", success := true, error := "", time := 1 }),
          (("d/b.otf" : String), TaskOutcome.exn ("boom"))]).length
        [(("d/b.otf" : String), TaskOutcome.exn ("boom")),
         (("d/a.otf" : String),
           TaskOutcome.res { filename := "a.otf", success := true, error := "", time := 1 })]).processed_count
      = ([(("d/a.otf" : String),
            TaskOutcome.res { filename := "a.otf", success := true, error := "", time := 1 }),
          (("d/b.otf" : String), TaskOutcome.exn ("boom"))]).length ∧
     (collectResults
        ([(("d/a.otf" : String),
            TaskOutcome.res { filename := "a.otf", success := true, error := "", time := 1 }),
          (("d/b.otf" : String), TaskOutcome.exn ("boom"))]).length
        [(("d/b.otf" : String), TaskOutcome.exn ("boom")),
         (("d/a.otf" : String),
           TaskOutcome.res { filename := "a.otf", success := true, error := "", time := 1 })]).success_count
        + (collectResults
            ([(("d/a.otf" : String),
                TaskOutcome.res { filename := "a.otf", success := true, error := "", time := 1 }),
              (("d/b.otf" : String), TaskOutcome.exn ("boom"))]).length
            [(("d/b.otf" : String), TaskOutcome.exn ("boom")),
             (("d/a.otf" : String),
               TaskOutcome.res { filename := "a.otf", success := true, error := "", time := 1 })]).failed_count
      = (collectResults
            ([(("d/a.otf" : String),
                TaskOutcome.res { filename := "a.otf", success := true, error := "", time := 1 }),
              (("d/b.otf" : String), TaskOutcome.exn ("boom"))]).length
            [(("d/b.otf" : String), TaskOutcome.exn ("boom")),
             (("d/a.otf" : String),
               TaskOutcome.res { filename := "a.otf", success := true, error := "", time := 1 })]).processed_count ∧
     ((collectResults
          ([(("d/a.otf" : String),
              TaskOutcome.res { filename := "a.otf", success := true, error := "", time := 1 }),
            (("d/b.otf" : String), TaskOutcome.exn ("boom"))]).length
          [(("d/b.otf" : String), TaskOutcome.exn ("boom")),
           (("d/a.otf" : String),
             TaskOutcome.res { filename := "a.otf", success := true, error := "", time := 1 })]).collected).Perm
       (([(("d/a.otf" : String),
            TaskOutcome.res { filename := "a.otf", success := true, error := "", time := 1 }),
          (("d/b.otf" : String), TaskOutcome.exn ("boom"))]).map
          (fun t => outcomeResult t.1 t.2))) :=
  ⟨List.Perm.swap _ _ _, collect_loop_one_result_per_task _ _ (List.Perm.swap _ _ _)⟩

/-- Claim C2 (code bug): when the external process exits non-zero with an
EMPTY error stream, the claim (and the code's own dead fallback branch)
says the error message should be the generic `未知错误`; but
`"".strip().split('\n')` is `[""]`, a truthy list, so the code stores the
empty string and the fallback is unreachable. This theorem evaluates the
embedded code at that failing input. -/
theorem convert_empty_stderr_error_is_empty_string :
    (convert_otf_to_ttf ("d/a.otf")
        { fileExists := true, proc := .completes 1 (""), t_start := 0, t_end := 0 }).error
      = "" ∧
    (convert_otf_to_ttf ("d/a.otf")
        { fileExists := true, proc := .completes 1 (""), t_start := 0, t_end := 0 }).error
      ≠ "未知错误" := by
  exact ⟨rfl, by decide⟩

/-- Claim C3: `convert_otf_to_ttf` never propagates an exception past its
own boundary — in the embedding it is a total function into
`ConversionResult` — and when the subprocess call raises (for example the
executable is not found), the `except Exception` handler produces a failed
result whose error is `系统错误: <detail>`. -/
theorem convert_never_propagates (file_path msg : String) (env : ConvEnv)
    (hex : env.fileExists = true) (hp : env.proc = .raises msg) :
    (convert_otf_to_ttf file_path env).success = false ∧
    (convert_otf_to_ttf file_path env).error = "系统错误: " ++ msg := by
  have h : convertTryBody file_path env = .error msg := by
    simp [convertTryBody, hex, hp]
  unfold convert_otf_to_ttf
  rw [h]
  exact ⟨rfl, rfl⟩

/-- Witness for C3: the converter executable is missing, the subprocess
call raises `FileNotFoundError`. -/
theorem convert_never_propagates_witness :
    (({ fileExists := true, proc := .raises ("No such file or directory: otf2ttf"),
        t_start := 0, t_end := 1 } : ConvEnv).fileExists = true) ∧
    (({ fileExists := true, proc := .raises ("No such file or directory: otf2ttf"),
        t_start := 0, t_end := 1 } : ConvEnv).proc
      = .raises ("No such file or directory: otf2ttf")) ∧
    ((convert_otf_to_ttf ("d/a.otf")
        { fileExists := true, proc := .raises ("No such file or directory: otf2ttf"),
          t_start := 0, t_end := 1 }).success = false ∧
     (convert_otf_to_ttf ("d/a.otf")
        { fileExists := true, proc := .raises ("No such file or directory: otf2ttf"),
          t_start := 0, t_end := 1 }).error
       = "系统错误: " ++ ("No such file or directory: otf2ttf")) :=
  ⟨rfl, rfl, convert_never_propagates _ _ _ rfl rfl⟩

/-- Claim C9: the elapsed-time field of the result of `convert_otf_to_ttf`
is the wall-clock duration of the whole call on EVERY exit path (early
return for a missing file, non-zero exit, caught exception, success):
the `finally` block runs on each of these paths and overwrites the field
with `time.time() - start_time` just before the dictionary is returned. -/
theorem convert_time_is_wallclock (file_path : String) (env : ConvEnv) :
    (convert_otf_to_ttf file_path env).time = env.t_end - env.t_start := rfl

/-- Claim C5: for every detected logical CPU count (including failed
detection, where `os.cpu_count() or 1` yields 1), the worker-pool size is
`min(2 × cpu_cores, 32)` and is never less than 1. -/
theorem worker_pool_size (detected : Option ℕ) :
    max_threads_of (cpu_cores_of detected) = min (2 * cpu_cores_of detected) 32 ∧
    1 ≤ max_threads_of (cpu_cores_of detected) := by
  have h1 : 1 ≤ cpu_cores_of detected := by
    cases detected with
    | none => exact le_refl 1
    | some n =>
        by_cases h : n = 0 <;> simp [cpu_cores_of, h]
        omega
  constructor
  · simp [max_threads_of, Nat.mul_comm]
  · simp only [max_threads_of]
    omega

/-- Claim C6: once the result stream is exhausted, the average per-file
time equals the cumulative per-file time divided by the total file count
(exactly 0 when that count is 0), and the throughput equals the success
count divided by the wall-clock duration (exactly 0 when that duration
is 0). -/
theorem final_statistics (total_processing_time : ℚ) (total_files : ℕ)
    (success_count : ℕ) (total_duration : ℚ) (hd : 0 ≤ total_duration) :
    avg_time_per_file total_processing_time total_files
        = total_processing_time / (total_files : ℚ) ∧
    avg_time_per_file total_processing_time 0 = 0 ∧
    files_per_second success_count total_duration
        = (success_count : ℚ) / total_duration ∧
    files_per_second success_count 0 = 0 := by
  refine ⟨?_, by simp [avg_time_per_file], ?_, by simp [files_per_second]⟩
  · rcases Nat.eq_zero_or_pos total_files with h | h
    · subst h
      simp [avg_time_per_file]
    · simp [avg_time_per_file, h]
  · rcases eq_or_lt_of_le hd with h | h
    · rw [← h]
      simp [files_per_second]
    · simp [files_per_second, h]

/-- Witness for C6 at concrete statistics values. -/
theorem final_statistics_witness :
    (0 : ℚ) ≤ 4 ∧
    (avg_time_per_file 6 3 = 6 / ((3 : ℕ) : ℚ) ∧
     avg_time_per_file 6 0 = 0 ∧
     files_per_second 8 4 = ((8 : ℕ) : ℚ) / 4 ∧
     files_per_second 8 0 = 0) :=
  ⟨by norm_num, final_statistics 6 3 8 4 (by norm_num)⟩

/-- Counterexample to claim C4 as stated: in a run whose single task fails
via an escaped task-execution exception, the collection loop counts one
failure, yet the final failure listing is empty — the bare
`except: pass` at lines 197-198 skips every future whose `result()`
re-raises, so that failure's filename and error message never appear. -/
theorem failure_listing_omits_escaped_exception :
    (collectResults 1 [(("d/c.otf" : String), TaskOutcome.exn ("boom"))]).failed_count = 1 ∧
    failureListing [(("d/c.otf" : String), TaskOutcome.exn ("boom"))] = [] :=
  ⟨rfl, rfl⟩

/-- Claim C4 (amended): the final failure listing contains, for every task
that yielded a RETURNED failed result, its filename and error message
exactly once (counted here for each `(filename, error)` pair); tasks whose
failure came from an escaped task-execution exception are counted as
failures by the loop but omitted from the listing. -/
theorem failure_listing_exactly_once_per_returned_failure
    (tasks : List (String × TaskOutcome)) (f e : String) :
    (failureListing tasks).countP (fun q => q.1 == f && q.2 == e) =
      tasks.countP (fun t =>
        match t.2 with
        | .res r => !r.success && (r.filename == f && r.error == e)
        | .exn _ => false) := by
  induction tasks with
  | nil => rfl
  | cons t ts ih =>
      obtain ⟨p, o⟩ := t
      cases o with
      | exn m =>
          simpa [failureListing, List.countP_cons] using ih
      | res r =>
          cases hs : r.success with
          | true => simpa [failureListing, List.countP_cons, hs] using ih
          | false => simp [failureListing, List.countP_cons, hs, ih]

/-- Claim C7: in every run where the directory listing succeeds but zero
entries pass the `.otf` filter, `main` reports the zero-files condition
and returns at line 107, before the worker pool is constructed and before
any task is dispatched. -/
theorem zero_files_reports_and_returns (env : FsEnv) (cpuDetect : Option ℕ)
    (font_dir : String) (h : get_otf_files env font_dir = .ok []) :
    mainPhase env cpuDetect font_dir = .noFiles ∧
    ∀ fs n, mainPhase env cpuDetect font_dir ≠ .dispatched fs n := by
  have hm : mainPhase env cpuDetect font_dir = .noFiles := by
    simp [mainPhase, h]
  refine ⟨hm, ?_⟩
  intro fs n hc
  rw [hm] at hc
  exact MainOutcome.noConfusion hc

/-- Witness for C7: a directory containing only a non-matching file. -/
theorem zero_files_reports_and_returns_witness :
    get_otf_files { listdir := .ok ["readme.txt"], isFile := fun _ => true } ("d")
      = .ok [] ∧
    (mainPhase { listdir := .ok ["readme.txt"], isFile := fun _ => true } (some 4) ("d")
        = .noFiles ∧
     ∀ fs n,
       mainPhase { listdir := .ok ["readme.txt"], isFile := fun _ => true } (some 4) ("d")
         ≠ .dispatched fs n) :=
  ⟨rfl, zero_files_reports_and_returns _ _ _ rfl⟩

/-- Claim C8: in every run where `os.listdir` raises (the directory does
not exist or is not a directory), the exception propagates out of
`get_otf_files` and out of `main` — which has no handler — so the run
fails with the directory error before the pool exists and before any
task is dispatched. -/
theorem missing_directory_aborts (env : FsEnv) (cpuDetect : Option ℕ)
    (font_dir msg : String) (h : env.listdir = .error msg) :
    get_otf_files env font_dir = .error msg ∧
    mainPhase env cpuDetect font_dir = .dirError msg ∧
    ∀ fs n, mainPhase env cpuDetect font_dir ≠ .dispatched fs n := by
  have hg : get_otf_files env font_dir = .error msg := by
    simp [get_otf_files, h]
  have hm : mainPhase env cpuDetect font_dir = .dirError msg := by
    simp [mainPhase, hg]
  refine ⟨hg, hm, ?_⟩
  intro fs n hc
  rw [hm] at hc
  exact MainOutcome.noConfusion hc

/-- Witness for C8: `os.listdir` raises `FileNotFoundError`. -/
theorem missing_directory_aborts_witness :
    (({ listdir := .error ("ENOENT"), isFile := fun _ => false } : FsEnv).listdir
      = .error ("ENOENT")) ∧
    (get_otf_files { listdir := .error ("ENOENT"), isFile := fun _ => false } ("d")
        = .error ("ENOENT") ∧
     mainPhase { listdir := .error ("ENOENT"), isFile := fun _ => false } none ("d")
        = .dirError ("ENOENT") ∧
     ∀ fs n,
       mainPhase { listdir := .error ("ENOENT"), isFile := fun _ => false } none ("d")
         ≠ .dispatched fs n) :=
  ⟨rfl, missing_directory_aborts _ _ _ _ rfl⟩

/-- Claim C10: `print_progress_bar` divides by its `total` argument, so
`total = 0` is undefined (Python raises `ZeroDivisionError`, modelled as
`none`); in `main` this is unreachable — a run that dispatches has a
non-empty task list, and every `print_progress_bar` call recorded by the
collection loop has `total = total_files ≥ 1` and
`1 ≤ iteration ≤ total`, so the percentage and fill-length computations
are well-defined at every call. -/
theorem progress_bar_division_safe (tasks : List (String × TaskOutcome))
    (h : tasks ≠ []) :
    (∀ i len, print_progress_bar_percent i 0 = none ∧
       print_progress_bar_filled_length i 0 len = none) ∧
    (1 ≤ tasks.length) ∧
    ∀ p ∈ (collectResults tasks.length tasks).progressCalls,
      1 ≤ p.1 ∧ p.1 ≤ p.2 ∧ p.2 = tasks.length ∧
      (print_progress_bar_percent p.1 p.2).isSome = true ∧
      ∀ len, (print_progress_bar_filled_length p.1 p.2 len).isSome = true := by
  have hlen : 1 ≤ tasks.length := by
    cases tasks with
    | nil => exact absurd rfl h
    | cons t ts => simp
  refine ⟨fun i len => ⟨rfl, rfl⟩, hlen, ?_⟩
  intro p hp
  rcases foldl_collect_progress_mem tasks.length tasks initLoopState p hp with h0 | h0
  · exact absurd h0 (List.not_mem_nil p)
  · have h1 : 1 ≤ p.1 := by
      have := h0.1
      simp [initLoopState] at this
      omega
    have h2 : p.1 ≤ tasks.length := by
      have := h0.2.1
      simp [initLoopState] at this
      omega
    have h3 : p.2 = tasks.length := h0.2.2
    have hz : p.2 ≠ 0 := by omega
    refine ⟨h1, by omega, h3, ?_, ?_⟩
    · simp [print_progress_bar_percent, hz]
    · intro len
      simp [print_progress_bar_filled_length, hz]

/-- Witness for C10 at a concrete one-task run. -/
theorem progress_bar_division_safe_witness :
    ([(("d/a.otf" : String),
        TaskOutcome.res { filename := "a.otf", success := true, error := "", time := 0 })]
      ≠ []) ∧
    ((∀ i len, print_progress_bar_percent i 0 = none ∧
        print_progress_bar_filled_length i 0 len = none) ∧
     (1 ≤ ([(("d/a.otf" : String),
          TaskOutcome.res { filename := "a.otf", success := true, error := "", time := 0 })]).length) ∧
     ∀ p ∈ (collectResults
          ([(("d/a.otf" : String),
              TaskOutcome.res { filename := "a.otf", success := true, error := "", time := 0 })]).length
          [(("d/a.otf" : String),
            TaskOutcome.res { filename := "a.otf", success := true, error := "", time := 0 })]).progressCalls,
       1 ≤ p.1 ∧ p.1 ≤ p.2 ∧
       p.2 = ([(("d/a.otf" : String),
           TaskOutcome.res { filename := "a.otf", success := true, error := "", time := 0 })]).length ∧
       (print_progress_bar_percent p.1 p.2).isSome = true ∧
       ∀ len, (print_progress_bar_filled_length p.1 p.2 len).isSome = true) :=
  ⟨by simp, progress_bar_division_safe _ (by simp)⟩

end FontConvert
